import Mathlib

/-!
Shallow embedding of the deviation-scan-and-alert core of the
`price-screener-binance` repository (`price_screener.py`,
`price_screener_binance.py`, `price_screener_rwa.py`, `price_screener_ws.py`).

Prices and timestamps are modelled as rationals (`ℚ`); Python dictionaries
holding per-key alert bookkeeping become an explicit `AlertState` record;
Python `try/except` around network fetches becomes an `Except` input; a
Telegram delivery attempt's success is an explicit `Bool` parameter.
-/

namespace BinancePriceScreener

/-- `BinancePriceScreener.calculate_deviation` (price_screener_binance.py,
lines 311-315): signed percentage deviation, 0 when the reference is 0. -/
def calculate_deviation (lighter_price binance_price : ℚ) : ℚ :=
  if binance_price = 0 then 0
  else ((lighter_price - binance_price) / binance_price) * 100

end BinancePriceScreener

namespace RWAPriceScreener

/-- `RWAPriceScreener.calculate_deviation` (price_screener_rwa.py,
lines 313-317): signed percentage deviation from the oracle price,
0 when the oracle price is 0. -/
def calculate_deviation (price oracle_price : ℚ) : ℚ :=
  if oracle_price = 0 then 0
  else ((price - oracle_price) / oracle_price) * 100

end RWAPriceScreener

namespace PriceScreener

/-- `PriceScreener.calculate_deviation` (price_screener.py, lines 163-167):
absolute percentage deviation between last price and mark price. -/
def calculate_deviation (last_price mark_price : ℚ) : ℚ :=
  if mark_price = 0 then 0
  else |(last_price - mark_price) / mark_price * 100|

end PriceScreener

namespace WebSocketPriceScreener

/-- `WebSocketPriceScreener.calculate_deviation` (price_screener_ws.py,
lines 86-90): identical to the one in price_screener.py. -/
def calculate_deviation (last_price mark_price : ℚ) : ℚ :=
  if mark_price = 0 then 0
  else |(last_price - mark_price) / mark_price * 100|

end WebSocketPriceScreener

namespace BinancePriceScreener

/-- Decision core of `BinancePriceScreener.check_market`
(price_screener_binance.py, lines 388-444).  The pre-fetched prices are
`Option ℚ` (Python's `.get` returning `None`), and Python's truthiness test
`if not price` additionally rejects a price of 0.  `custom` is
`CUSTOM_THRESHOLDS.get(symbol)`, `in_blacklist` is
`symbol in SYMBOL_BLACKLIST`.  The result is the signed deviation of the
candidate alert, `none` when no candidate is produced. -/
def check_market (in_blacklist : Bool) (custom : Option ℚ)
    (default_threshold : ℚ) (binance_price lighter_price : Option ℚ) :
    Option ℚ :=
  if in_blacklist then none
  else
    match binance_price with
    | none => none
    | some bp =>
      if bp = 0 then none
      else
        match lighter_price with
        | none => none
        | some lp =>
          if lp = 0 then none
          else
            let deviation := calculate_deviation lp bp
            let threshold := custom.getD default_threshold
            if custom = none ∧ 30 < |deviation| then none
            else if threshold ≤ |deviation| then some deviation
            else none

/-- Decision core of `BinancePriceScreener.check_hyperliquid_market`
(price_screener_binance.py, lines 446-520).  Returns the list of candidate
alerts, each tagged `true` for the bid side and `false` for the ask side,
with its signed deviation; the empty list stands for the Python `None`
result. -/
def check_hyperliquid_market (in_blacklist : Bool) (custom : Option ℚ)
    (default_threshold : ℚ) (binance_price best_bid best_ask : Option ℚ) :
    List (Bool × ℚ) :=
  if in_blacklist then []
  else
    match binance_price with
    | none => []
    | some bp =>
      if bp = 0 then []
      else
        match best_bid, best_ask with
        | some bid, some ask =>
          if bid = 0 ∨ ask = 0 then []
          else
            let bid_deviation := calculate_deviation bid bp
            let ask_deviation := calculate_deviation ask bp
            let threshold := custom.getD default_threshold
            if custom = none ∧ (30 < |bid_deviation| ∨ 30 < |ask_deviation|)
            then []
            else
              (if threshold ≤ |bid_deviation| then [(true, bid_deviation)]
               else []) ++
              (if threshold ≤ |ask_deviation| then [(false, ask_deviation)]
               else [])
        | _, _ => []

end BinancePriceScreener

/-- Per-key alert bookkeeping shared by the screeners: the entries of the
`self.last_alert`, `self.consecutive_alerts` and `self.blacklisted`
dictionaries for one alert key.  A key absent from a dictionary is the
`none` / `0` value. -/
structure AlertState where
  last_alert : Option ℚ
  consecutive_alerts : ℕ
  blacklisted : Option ℚ
  deriving Repr, DecidableEq

/-- The initial bookkeeping of a fresh key: absent from all three
dictionaries. -/
def AlertState.init : AlertState := ⟨none, 0, none⟩

/-- Outcome of one `send_alert` invocation. -/
inductive SendOutcome where
  /-- Returned early: the key is blacklisted (debug log only). -/
  | dropped
  /-- Hit 2 consecutive alerts: blacklisted the key and sent the operator
  blacklist message instead of the normal alert. -/
  | blacklistNotice
  /-- Returned early: cooldown active, Telegram message skipped. -/
  | cooldownSuppressed
  /-- The normal alert was delivered through Telegram. -/
  | sent
  /-- The Telegram send raised `TelegramError`; the error was logged. -/
  | deliveryFailed
  deriving Repr, DecidableEq

/-- `self.alert_cooldown = 300` seconds. -/
def alert_cooldown : ℚ := 300

/-- `self.blacklist_duration = 86400` seconds. -/
def blacklist_duration : ℚ := 86400

namespace PriceScreener

/-- Decision core of `PriceScreener.check_market` (price_screener.py,
lines 169-235): the part after the last trade price and the mark price have
been extracted.  A zero last price is rejected (`if last_price == 0`),
a missing mark price skips the symbol.  The candidate carries the
(absolute) deviation and the direction flag, `true` for "above"
(`last_price > mark_price`, line 223). -/
def check_market (last_price : ℚ) (mark_price : Option ℚ)
    (deviation_threshold : ℚ) : Option (ℚ × Bool) :=
  if last_price = 0 then none
  else
    match mark_price with
    | none => none
    | some mp =>
      let deviation := calculate_deviation last_price mp
      if deviation_threshold ≤ deviation then
        some (deviation, decide (mp < last_price))
      else none

end PriceScreener

namespace BinancePriceScreener

/-- The blacklist test of `BinancePriceScreener.send_alert`
(price_screener_binance.py, lines 322-325): a key is blacklisted when a
blacklist timestamp is recorded and less than `blacklist_duration` has
elapsed since it. -/
def isBlacklisted (s : AlertState) (now : ℚ) : Bool :=
  match s.blacklisted with
  | none => false
  | some t0 => now - t0 < blacklist_duration

/-- The body of `BinancePriceScreener.send_alert` after the blacklist check
(price_screener_binance.py, lines 336-386): increment the consecutive
counter, blacklist at 2, otherwise apply the cooldown and attempt the
Telegram delivery.  `ok` is whether the Telegram send succeeds; only a
successful send records `last_alert = now` (line 383 runs after the send,
inside the `try`). -/
def send_alert_core (s : AlertState) (now : ℚ) (ok : Bool) :
    AlertState × SendOutcome :=
  if 2 ≤ s.consecutive_alerts + 1 then
    ({ s with consecutive_alerts := s.consecutive_alerts + 1,
              blacklisted := some now }, .blacklistNotice)
  else
    match s.last_alert with
    | some t =>
      if now - t < alert_cooldown then
        ({ s with consecutive_alerts := s.consecutive_alerts + 1 },
         .cooldownSuppressed)
      else if ok then
        ({ s with consecutive_alerts := s.consecutive_alerts + 1,
                  last_alert := some now }, .sent)
      else
        ({ s with consecutive_alerts := s.consecutive_alerts + 1 },
         .deliveryFailed)
    | none =>
      if ok then
        ({ s with consecutive_alerts := s.consecutive_alerts + 1,
                  last_alert := some now }, .sent)
      else
        ({ s with consecutive_alerts := s.consecutive_alerts + 1 },
         .deliveryFailed)

/-- `BinancePriceScreener.send_alert` (price_screener_binance.py,
lines 317-386) as a step on one key's `AlertState`.  A blacklisted key is
dropped; an expired blacklist is cleared together with the consecutive
counter before the normal pipeline runs. -/
def send_alert (s : AlertState) (now : ℚ) (ok : Bool) :
    AlertState × SendOutcome :=
  match s.blacklisted with
  | some t0 =>
    if now - t0 < blacklist_duration then (s, .dropped)
    else
      send_alert_core { s with blacklisted := none, consecutive_alerts := 0 }
        now ok
  | none => send_alert_core s now ok

/-- The alert-sending loop of `BinancePriceScreener.scan_all_markets`
(price_screener_binance.py, lines 579-581): `send_alert` is applied to each
candidate in order, each key reading and updating its own `AlertState` in
the shared dictionaries.  Each candidate is (key, now, delivery success);
the result pairs the final state table with the outcome of every
candidate. -/
def runAlerts (st : String → AlertState) :
    List (String × ℚ × Bool) → (String → AlertState) × List (String × SendOutcome)
  | [] => (st, [])
  | (k, now, ok) :: rest =>
    let r := send_alert (st k) now ok
    let p := runAlerts (Function.update st k r.1) rest
    (p.1, (k, r.2) :: p.2)

end BinancePriceScreener

namespace RWAPriceScreener

/-- The `try` block of `RWAPriceScreener.send_alert`
(price_screener_rwa.py, lines 134-173): only after the Telegram send
succeeds are `last_alert` (line 143), `consecutive_alerts` (line 147) and,
at 2 consecutive alerts, the blacklist (line 154) updated; a
`TelegramError` leaves the state untouched (the whole block is inside the
`try`). -/
def deliver (s : AlertState) (now : ℚ) (ok : Bool) :
    AlertState × SendOutcome :=
  if ok then
    (if 2 ≤ s.consecutive_alerts + 1 then
      { s with last_alert := some now,
               consecutive_alerts := s.consecutive_alerts + 1,
               blacklisted := some now }
     else
      { s with last_alert := some now,
               consecutive_alerts := s.consecutive_alerts + 1 }, .sent)
  else (s, .deliveryFailed)

/-- The body of `RWAPriceScreener.send_alert` after the blacklist check
(price_screener_rwa.py, lines 128-173): the cooldown check comes first
(lines 129-132) and, unlike the Binance variant, precedes any state
update; a candidate surviving the cooldown goes to `deliver`. -/
def send_alert_core (s : AlertState) (now : ℚ) (ok : Bool) :
    AlertState × SendOutcome :=
  match s.last_alert with
  | some t =>
    if now - t < alert_cooldown then (s, .cooldownSuppressed)
    else deliver s now ok
  | none => deliver s now ok

/-- `RWAPriceScreener.send_alert` (price_screener_rwa.py, lines 105-173) as
a step on one key's `AlertState`.  The blacklist handling (lines 109-124)
matches the Binance variant; the rest differs as described on
`send_alert_core`. -/
def send_alert (s : AlertState) (now : ℚ) (ok : Bool) :
    AlertState × SendOutcome :=
  match s.blacklisted with
  | some t0 =>
    if now - t0 < blacklist_duration then (s, .dropped)
    else
      send_alert_core { s with blacklisted := none, consecutive_alerts := 0 }
        now ok
  | none => send_alert_core s now ok

end RWAPriceScreener

namespace BinancePriceScreener

/-- One raw entry of the Binance `premiumIndex` response as
`fetch_binance_mark_prices` reads it (price_screener_binance.py,
lines 124-132): `symbol` and `markPrice` may be absent or falsy (`none`),
and the `float(mark_price)` conversion may fail (`markPrice = some none`).
-/
structure RawItem where
  symbol : Option String
  markPrice : Option (Option ℚ)
  deriving Repr, DecidableEq

/-- The failures the `except` clause of `fetch_binance_mark_prices`
catches: network errors, timeouts, bad HTTP status, malformed JSON. -/
inductive FetchError where
  | network
  | timeout
  | badStatus
  | malformed
  deriving Repr, DecidableEq

/-- `BinancePriceScreener.fetch_binance_mark_prices`
(price_screener_binance.py, lines 112-139): on any fetch failure the
exception is caught, logged and an empty mapping is returned; otherwise the
items with a truthy symbol and a parseable truthy mark price are collected.
-/
def fetch_binance_mark_prices (resp : Except FetchError (List RawItem)) :
    List (String × ℚ) :=
  match resp with
  | .error _ => []
  | .ok data =>
    data.filterMap fun item =>
      match item.symbol, item.markPrice with
      | some sym, some mp =>
        if sym = "" then none
        else match mp with
          | some price => some (sym, price)
          | none => none
      | _, _ => none

/-- The scan loop of `BinancePriceScreener.run` (price_screener_binance.py,
lines 596-607), restricted to the Binance fetch of each cycle: every cycle
runs its own fetch, whose failures are already caught inside
`fetch_binance_mark_prices`, and the loop continues to the next cycle
regardless. -/
def runCycles : List (Except FetchError (List RawItem)) → List (List (String × ℚ))
  | [] => []
  | resp :: rest => fetch_binance_mark_prices resp :: runCycles rest

end BinancePriceScreener

/-! ## Claim theorems -/

/-- C1: in the Binance and RWA screeners, `calculate_deviation(observed,
reference)` equals `(observed - reference) / reference * 100` when the
reference price is non-zero, and equals 0 when the reference price is 0. -/
theorem calculate_deviation_spec (observed reference : ℚ) :
    (reference ≠ 0 →
      BinancePriceScreener.calculate_deviation observed reference
        = (observed - reference) / reference * 100 ∧
      RWAPriceScreener.calculate_deviation observed reference
        = (observed - reference) / reference * 100) ∧
    BinancePriceScreener.calculate_deviation observed 0 = 0 ∧
    RWAPriceScreener.calculate_deviation observed 0 = 0 := by
  constructor
  · intro h
    constructor <;>
      simp [BinancePriceScreener.calculate_deviation,
            RWAPriceScreener.calculate_deviation, h]
  · constructor <;>
      simp [BinancePriceScreener.calculate_deviation,
            RWAPriceScreener.calculate_deviation]

theorem calculate_deviation_spec_witness :
    (100 : ℚ) ≠ 0 ∧
    BinancePriceScreener.calculate_deviation 105 100
      = ((105 : ℚ) - 100) / 100 * 100 := by
  have h := calculate_deviation_spec (105 : ℚ) 100
  exact ⟨by norm_num, (h.1 (by norm_num)).1⟩

/-- C10: in price_screener.py and price_screener_ws.py,
`calculate_deviation` returns the absolute percentage deviation: it is
non-negative for every input (and identical between the two files), so an
alert's above/below direction is recomputed in `check_market` by comparing
the raw prices (`last_price > mark_price`). -/
theorem abs_deviation_direction :
    (∀ l m : ℚ, 0 ≤ PriceScreener.calculate_deviation l m) ∧
    (∀ l m : ℚ, PriceScreener.calculate_deviation l m
        = WebSocketPriceScreener.calculate_deviation l m) ∧
    (∀ (l mp thr d : ℚ) (dir : Bool),
      PriceScreener.check_market l (some mp) thr = some (d, dir) →
      0 ≤ d ∧ dir = decide (mp < l)) := by
  refine ⟨?_, fun l m => rfl, ?_⟩
  · intro l m
    unfold PriceScreener.calculate_deviation
    split_ifs
    · exact le_refl 0
    · exact abs_nonneg _
  · intro l mp thr d dir h
    simp only [PriceScreener.check_market] at h
    split_ifs at h with h0 hth
    · simp only [Option.some.injEq, Prod.mk.injEq] at h
      refine ⟨?_, h.2.symm⟩
      rw [← h.1]
      unfold PriceScreener.calculate_deviation
      split_ifs
      · exact le_refl 0
      · exact abs_nonneg _

theorem abs_deviation_direction_witness :
    PriceScreener.check_market 105 (some 100) 2 = some (5, true) ∧
    (0 : ℚ) ≤ 5 ∧ (true = decide ((100 : ℚ) < 105)) := by
  have hm : PriceScreener.check_market 105 (some 100) 2 = some (5, true) := by
    norm_num [PriceScreener.check_market, PriceScreener.calculate_deviation]
  exact ⟨hm, (abs_deviation_direction.2.2 105 100 2 5 true hm).1,
    (abs_deviation_direction.2.2 105 100 2 5 true hm).2⟩

/-- C2: the threshold comparison is inclusive.  In price_screener.py
a deviation exactly equal to the threshold produces the alert, and in
price_screener_binance.py a deviation whose absolute value exactly equals
the resolved threshold (the custom one when configured, the default one
otherwise, there provided it does not also trip the 30% sanity bound)
produces the candidate alert. -/
theorem threshold_boundary_inclusive :
    (∀ l mp thr : ℚ, l ≠ 0 →
      PriceScreener.calculate_deviation l mp = thr →
      PriceScreener.check_market l (some mp) thr
        = some (thr, decide (mp < l))) ∧
    (∀ d bp lp : ℚ, bp ≠ 0 → lp ≠ 0 →
      |BinancePriceScreener.calculate_deviation lp bp| = d → d ≤ 30 →
      BinancePriceScreener.check_market false none d (some bp) (some lp)
        = some (BinancePriceScreener.calculate_deviation lp bp)) ∧
    (∀ c d bp lp : ℚ, bp ≠ 0 → lp ≠ 0 →
      |BinancePriceScreener.calculate_deviation lp bp| = c →
      BinancePriceScreener.check_market false (some c) d (some bp) (some lp)
        = some (BinancePriceScreener.calculate_deviation lp bp)) := by
  refine ⟨?_, ?_, ?_⟩
  · intro l mp thr h0 hdev
    simp [PriceScreener.check_market, h0, hdev]
  · intro d bp lp hbp hlp hdev hle
    have h30 : ¬ (30 : ℚ) < d := not_lt.mpr hle
    simp [BinancePriceScreener.check_market, hbp, hlp, hdev, h30]
  · intro c d bp lp hbp hlp hdev
    simp [BinancePriceScreener.check_market, hbp, hlp, hdev]

theorem threshold_boundary_inclusive_witness :
    PriceScreener.check_market 105 (some 100) 5 = some (5, true) ∧
    BinancePriceScreener.check_market false none 5 (some 100) (some 105)
      = some 5 := by
  have h := threshold_boundary_inclusive
  constructor
  · have := h.1 105 100 5 (by norm_num)
      (by norm_num [PriceScreener.calculate_deviation])
    simpa using this
  · have := h.2.1 5 100 105 (by norm_num) (by norm_num)
      (by norm_num [BinancePriceScreener.calculate_deviation]) (by norm_num)
    rw [this]
    norm_num [BinancePriceScreener.calculate_deviation]

/-- C6: for a symbol without a custom threshold, an absolute deviation
above the 30% sanity bound produces no candidate alert (in both
`check_market` and `check_hyperliquid_market`); for a symbol with a custom
threshold the sanity suppression does not apply and the same deviation does
produce the candidate when it meets the threshold. -/
theorem sanity_bound :
    (∀ d bp lp : ℚ, bp ≠ 0 → lp ≠ 0 →
      30 < |BinancePriceScreener.calculate_deviation lp bp| →
      BinancePriceScreener.check_market false none d (some bp) (some lp)
        = none) ∧
    (∀ c d bp lp : ℚ, bp ≠ 0 → lp ≠ 0 →
      c ≤ |BinancePriceScreener.calculate_deviation lp bp| →
      BinancePriceScreener.check_market false (some c) d (some bp) (some lp)
        = some (BinancePriceScreener.calculate_deviation lp bp)) ∧
    (∀ d bp bid ask : ℚ, bp ≠ 0 → bid ≠ 0 → ask ≠ 0 →
      30 < |BinancePriceScreener.calculate_deviation bid bp| →
      BinancePriceScreener.check_hyperliquid_market false none d
        (some bp) (some bid) (some ask) = []) ∧
    (∀ c d bp bid ask : ℚ, bp ≠ 0 → bid ≠ 0 → ask ≠ 0 →
      c ≤ |BinancePriceScreener.calculate_deviation bid bp| →
      (true, BinancePriceScreener.calculate_deviation bid bp) ∈
        BinancePriceScreener.check_hyperliquid_market false (some c) d
          (some bp) (some bid) (some ask)) := by
  refine ⟨?_, ?_, ?_, ?_⟩
  · intro d bp lp hbp hlp h30
    simp [BinancePriceScreener.check_market, hbp, hlp, h30]
  · intro c d bp lp hbp hlp hth
    simp [BinancePriceScreener.check_market, hbp, hlp, hth]
  · intro d bp bid ask hbp hbid hask h30
    simp [BinancePriceScreener.check_hyperliquid_market, hbp, hbid, hask, h30]
  · intro c d bp bid ask hbp hbid hask hth
    simp [BinancePriceScreener.check_hyperliquid_market, hbp, hbid, hask, hth]

theorem sanity_bound_witness :
    BinancePriceScreener.check_market false none (1/2) (some 100) (some 145)
      = none ∧
    BinancePriceScreener.check_market false (some 40) (1/2)
      (some 100) (some 145) = some 45 := by
  constructor
  · exact sanity_bound.1 (1/2) 100 145 (by norm_num) (by norm_num)
      (by norm_num [BinancePriceScreener.calculate_deviation])
  · have := sanity_bound.2.1 40 (1/2) 100 145 (by norm_num) (by norm_num)
      (by norm_num [BinancePriceScreener.calculate_deviation])
    rw [this]
    norm_num [BinancePriceScreener.calculate_deviation]

/-- C7: a configured custom per-symbol threshold replaces the global
default for the alert decision: the result of `check_market` (and of
`check_hyperliquid_market`) does not depend on the default threshold when a
custom threshold is present, and an absolute deviation below the custom
threshold produces no candidate even when it is above the default
(e.g. 8% deviation, custom 10%, default 0.5%). -/
theorem custom_threshold_overrides :
    (∀ (c d1 d2 : ℚ) (bp lp : Option ℚ),
      BinancePriceScreener.check_market false (some c) d1 bp lp
        = BinancePriceScreener.check_market false (some c) d2 bp lp) ∧
    (∀ c d bp lp : ℚ, bp ≠ 0 → lp ≠ 0 →
      |BinancePriceScreener.calculate_deviation lp bp| < c →
      BinancePriceScreener.check_market false (some c) d (some bp) (some lp)
        = none) ∧
    (∀ c d bp bid ask : ℚ, bp ≠ 0 → bid ≠ 0 → ask ≠ 0 →
      |BinancePriceScreener.calculate_deviation bid bp| < c →
      |BinancePriceScreener.calculate_deviation ask bp| < c →
      BinancePriceScreener.check_hyperliquid_market false (some c) d
        (some bp) (some bid) (some ask) = []) := by
  refine ⟨?_, ?_, ?_⟩
  · intro c d1 d2 bp lp
    cases bp <;> cases lp <;> simp [BinancePriceScreener.check_market]
  · intro c d bp lp hbp hlp hlt
    simp [BinancePriceScreener.check_market, hbp, hlp, not_le.mpr hlt]
  · intro c d bp bid ask hbp hbid hask hb ha
    simp [BinancePriceScreener.check_hyperliquid_market, hbp, hbid, hask,
          not_le.mpr hb, not_le.mpr ha]

theorem custom_threshold_overrides_witness :
    BinancePriceScreener.check_market false (some 10) (1/2)
      (some 100) (some 108) = none := by
  exact custom_threshold_overrides.2.1 10 (1/2) 100 108 (by norm_num)
    (by norm_num) (by norm_num [BinancePriceScreener.calculate_deviation])

/-- C9: a failed Binance fetch (network error, timeout, bad status,
malformed payload) is caught inside `fetch_binance_mark_prices`, which
returns the empty mapping instead of propagating an exception, and the
scan loop processes every cycle regardless: each cycle's output comes from
its own fresh fetch and the number of processed cycles always equals the
number of cycles. -/
theorem fetch_errors_nonfatal :
    (∀ e : BinancePriceScreener.FetchError,
      BinancePriceScreener.fetch_binance_mark_prices (.error e) = []) ∧
    (∀ cycles, BinancePriceScreener.runCycles cycles
        = cycles.map BinancePriceScreener.fetch_binance_mark_prices) ∧
    (∀ cycles,
      (BinancePriceScreener.runCycles cycles).length = cycles.length) := by
  have hmap : ∀ cycles, BinancePriceScreener.runCycles cycles
      = cycles.map BinancePriceScreener.fetch_binance_mark_prices := by
    intro cycles
    induction cycles with
    | nil => rfl
    | cons c rest ih => simp [BinancePriceScreener.runCycles, ih]
  refine ⟨fun e => rfl, hmap, fun cycles => ?_⟩
  rw [hmap]
  exact List.length_map _ _

namespace BinancePriceScreener

theorem send_alert_core_consecutive (s : AlertState) (now : ℚ) (ok : Bool) :
    (send_alert_core s now ok).1.consecutive_alerts
      = s.consecutive_alerts + 1 := by
  obtain ⟨la, ca, bl⟩ := s
  rcases la with _ | t <;> simp only [send_alert_core] <;>
    split_ifs <;> rfl

theorem send_alert_core_ne_dropped (s : AlertState) (now : ℚ) (ok : Bool) :
    (send_alert_core s now ok).2 ≠ SendOutcome.dropped := by
  obtain ⟨la, ca, bl⟩ := s
  rcases la with _ | t <;> simp only [send_alert_core] <;>
    split_ifs <;> simp

theorem send_alert_core_sent_last (s : AlertState) (now : ℚ) (ok : Bool)
    (h : (send_alert_core s now ok).2 = SendOutcome.sent) :
    (send_alert_core s now ok).1.last_alert = some now := by
  obtain ⟨la, ca, bl⟩ := s
  rcases la with _ | t <;> simp only [send_alert_core] at h ⊢ <;>
    split_ifs at h ⊢ <;> simp_all

theorem send_alert_core_last_unchanged (s : AlertState) (now : ℚ) (ok : Bool)
    (h : (send_alert_core s now ok).2 ≠ SendOutcome.sent) :
    (send_alert_core s now ok).1.last_alert = s.last_alert := by
  obtain ⟨la, ca, bl⟩ := s
  rcases la with _ | t <;> simp only [send_alert_core] at h ⊢ <;>
    split_ifs at h ⊢ <;> simp_all

theorem send_alert_core_cooldown_not_sent (s : AlertState) (now t : ℚ)
    (ok : Bool) (hl : s.last_alert = some t)
    (hc : now - t < alert_cooldown) :
    (send_alert_core s now ok).2 ≠ SendOutcome.sent := by
  obtain ⟨la, ca, bl⟩ := s
  simp only [AlertState.last_alert] at hl
  subst hl
  simp only [send_alert_core]
  split_ifs <;> simp_all

theorem send_alert_blacklisted_dropped (s : AlertState) (now t0 : ℚ)
    (ok : Bool) (hb : s.blacklisted = some t0)
    (hlt : now - t0 < blacklist_duration) :
    send_alert s now ok = (s, .dropped) := by
  obtain ⟨la, ca, bl⟩ := s
  simp only [AlertState.blacklisted] at hb
  subst hb
  simp [send_alert, hlt]

theorem send_alert_expired (s : AlertState) (now t0 : ℚ) (ok : Bool)
    (hb : s.blacklisted = some t0)
    (hge : ¬ now - t0 < blacklist_duration) :
    send_alert s now ok
      = send_alert_core
          { s with blacklisted := none, consecutive_alerts := 0 } now ok := by
  obtain ⟨la, ca, bl⟩ := s
  simp only [AlertState.blacklisted] at hb
  subst hb
  simp [send_alert, hge]

theorem send_alert_not_blacklisted (s : AlertState) (now : ℚ) (ok : Bool)
    (hb : s.blacklisted = none) :
    send_alert s now ok = send_alert_core s now ok := by
  obtain ⟨la, ca, bl⟩ := s
  simp only [AlertState.blacklisted] at hb
  subst hb
  simp [send_alert]

theorem send_alert_sent_last (s : AlertState) (now : ℚ) (ok : Bool)
    (h : (send_alert s now ok).2 = SendOutcome.sent) :
    (send_alert s now ok).1.last_alert = some now := by
  rcases hb : s.blacklisted with _ | t0
  · rw [send_alert_not_blacklisted s now ok hb] at h ⊢
    exact send_alert_core_sent_last _ _ _ h
  · by_cases hlt : now - t0 < blacklist_duration
    · rw [send_alert_blacklisted_dropped s now t0 ok hb hlt] at h
      simp at h
    · rw [send_alert_expired s now t0 ok hb hlt] at h ⊢
      exact send_alert_core_sent_last _ _ _ h

end BinancePriceScreener

/-- C3: in the Binance screener a key is blacklisted exactly when a
blacklist timestamp is recorded and less than the 24-hour
`blacklist_duration` has elapsed, and then `send_alert` drops the
candidate; a second consecutive alert on a non-blacklisted key blacklists
it at the current time (sending the operator notice, not the normal alert)
and every candidate within the following 24 hours is dropped; once the
duration has elapsed the key is evaluated normally again with the
blacklist cleared and `consecutive_alerts` reset to 0. -/
theorem blacklist_invariant :
    (∀ (s : AlertState) (now : ℚ) (ok : Bool),
      BinancePriceScreener.isBlacklisted s now = true →
      BinancePriceScreener.send_alert s now ok = (s, .dropped)) ∧
    (∀ (s : AlertState) (now : ℚ) (ok : Bool),
      BinancePriceScreener.isBlacklisted s now = false →
      (BinancePriceScreener.send_alert s now ok).2 ≠ .dropped) ∧
    (∀ (s : AlertState) (now : ℚ) (ok : Bool),
      s.blacklisted = none → 1 ≤ s.consecutive_alerts →
      (BinancePriceScreener.send_alert s now ok).1.blacklisted = some now ∧
      (BinancePriceScreener.send_alert s now ok).2 = .blacklistNotice ∧
      ∀ (now2 : ℚ) (ok2 : Bool), now2 - now < blacklist_duration →
        BinancePriceScreener.send_alert
            (BinancePriceScreener.send_alert s now ok).1 now2 ok2
          = ((BinancePriceScreener.send_alert s now ok).1, .dropped)) ∧
    (∀ (s : AlertState) (now t0 : ℚ) (ok : Bool),
      s.blacklisted = some t0 → blacklist_duration ≤ now - t0 →
      BinancePriceScreener.send_alert s now ok
        = BinancePriceScreener.send_alert_core
            { s with blacklisted := none, consecutive_alerts := 0 }
            now ok) := by
  refine ⟨?_, ?_, ?_, ?_⟩
  · intro s now ok h
    rcases hb : s.blacklisted with _ | t0
    · simp [BinancePriceScreener.isBlacklisted, hb] at h
    · simp only [BinancePriceScreener.isBlacklisted, hb,
        decide_eq_true_eq] at h
      exact BinancePriceScreener.send_alert_blacklisted_dropped s now t0 ok
        hb h
  · intro s now ok h
    rcases hb : s.blacklisted with _ | t0
    · rw [BinancePriceScreener.send_alert_not_blacklisted s now ok hb]
      exact BinancePriceScreener.send_alert_core_ne_dropped _ _ _
    · simp only [BinancePriceScreener.isBlacklisted, hb,
        decide_eq_false_iff_not] at h
      rw [BinancePriceScreener.send_alert_expired s now t0 ok hb h]
      exact BinancePriceScreener.send_alert_core_ne_dropped _ _ _
  · intro s now ok hb hc
    rw [BinancePriceScreener.send_alert_not_blacklisted s now ok hb]
    have h2 : 2 ≤ s.consecutive_alerts + 1 := by omega
    have hcore : BinancePriceScreener.send_alert_core s now ok
        = ({ s with consecutive_alerts := s.consecutive_alerts + 1,
                    blacklisted := some now }, .blacklistNotice) := by
      unfold BinancePriceScreener.send_alert_core
      rw [if_pos h2]
    rw [hcore]
    refine ⟨rfl, rfl, ?_⟩
    intro now2 ok2 hlt
    exact BinancePriceScreener.send_alert_blacklisted_dropped _ now2 now ok2
      rfl hlt
  · intro s now t0 ok hb hge
    exact BinancePriceScreener.send_alert_expired s now t0 ok hb
      (not_lt.mpr hge)

theorem blacklist_invariant_witness :
    BinancePriceScreener.isBlacklisted ⟨none, 0, some 0⟩ 100 = true ∧
    BinancePriceScreener.send_alert ⟨none, 0, some 0⟩ 100 true
      = (⟨none, 0, some 0⟩, .dropped) ∧
    (BinancePriceScreener.send_alert ⟨none, 1, none⟩ 0 true).1.blacklisted
      = some 0 ∧
    (BinancePriceScreener.send_alert ⟨none, 1, none⟩ 0 true).2
      = .blacklistNotice ∧
    BinancePriceScreener.send_alert ⟨none, 0, some 0⟩ 86400 true
      = BinancePriceScreener.send_alert_core ⟨none, 0, none⟩ 86400 true := by
  have h := blacklist_invariant
  have h1 : BinancePriceScreener.isBlacklisted ⟨none, 0, some 0⟩ 100
      = true := by
    norm_num [BinancePriceScreener.isBlacklisted, blacklist_duration]
  have h3 := h.2.2.1 ⟨none, 1, none⟩ 0 true rfl (by norm_num)
  refine ⟨h1, h.1 ⟨none, 0, some 0⟩ 100 true h1, h3.1, h3.2.1, ?_⟩
  have h4 := h.2.2.2 ⟨none, 0, some 0⟩ 86400 0 true rfl
    (by norm_num [blacklist_duration])
  simpa using h4

/-- C4: two candidate alerts for the same key within the 300-second
cooldown window produce at most one delivered notification: whenever the
key's recorded `last_alert` is less than `alert_cooldown` old, `send_alert`
does not deliver, and in particular a second candidate within 300 seconds
of a delivered first one is suppressed rather than sent. -/
theorem cooldown_at_most_one :
    (∀ (s : AlertState) (now t : ℚ) (ok : Bool),
      s.last_alert = some t → now - t < alert_cooldown →
      (BinancePriceScreener.send_alert s now ok).2 ≠ .sent) ∧
    (∀ (s : AlertState) (t1 t2 : ℚ) (ok1 ok2 : Bool),
      t2 - t1 < alert_cooldown →
      ¬((BinancePriceScreener.send_alert s t1 ok1).2 = .sent ∧
        (BinancePriceScreener.send_alert
            (BinancePriceScreener.send_alert s t1 ok1).1 t2 ok2).2
          = .sent)) := by
  have key : ∀ (s : AlertState) (now t : ℚ) (ok : Bool),
      s.last_alert = some t → now - t < alert_cooldown →
      (BinancePriceScreener.send_alert s now ok).2 ≠ .sent := by
    intro s now t ok hl hc
    rcases hb : s.blacklisted with _ | t0
    · rw [BinancePriceScreener.send_alert_not_blacklisted s now ok hb]
      exact BinancePriceScreener.send_alert_core_cooldown_not_sent s now t ok
        hl hc
    · by_cases hlt : now - t0 < blacklist_duration
      · rw [BinancePriceScreener.send_alert_blacklisted_dropped s now t0 ok
          hb hlt]
        simp
      · rw [BinancePriceScreener.send_alert_expired s now t0 ok hb hlt]
        exact BinancePriceScreener.send_alert_core_cooldown_not_sent _ now t
          ok hl hc
  refine ⟨key, ?_⟩
  rintro s t1 t2 ok1 ok2 hc ⟨h1, h2⟩
  have hlast := BinancePriceScreener.send_alert_sent_last s t1 ok1 h1
  exact key _ t2 t1 ok2 hlast hc h2

theorem cooldown_at_most_one_witness :
    (BinancePriceScreener.send_alert AlertState.init 0 true).2 = .sent ∧
    ¬((BinancePriceScreener.send_alert AlertState.init 0 true).2 = .sent ∧
      (BinancePriceScreener.send_alert
          (BinancePriceScreener.send_alert AlertState.init 0 true).1
          100 true).2 = .sent) := by
  exact ⟨rfl,
    cooldown_at_most_one.2 AlertState.init 0 100 true true
      (by norm_num [alert_cooldown])⟩

/-- C5 counterexample: in the RWA screener (price_screener_rwa.py) a
candidate alert on a non-blacklisted key whose cooldown is active does NOT
increment `consecutive_alerts` — the cooldown check (line 129) returns
before the increment (line 147) — refuting the claim that for every
candidate on a non-blacklisted key the count is incremented before the
cooldown check. -/
theorem consecutive_increment_counterexample :
    RWAPriceScreener.send_alert ⟨some 0, 0, none⟩ 100 true
      = (⟨some 0, 0, none⟩, .cooldownSuppressed) ∧
    (RWAPriceScreener.send_alert ⟨some 0, 0, none⟩ 100 true).1.consecutive_alerts
      = 0 := by
  have h : RWAPriceScreener.send_alert ⟨some 0, 0, none⟩ 100 true
      = (⟨some 0, 0, none⟩, .cooldownSuppressed) := by
    norm_num [RWAPriceScreener.send_alert, RWAPriceScreener.send_alert_core,
      alert_cooldown]
  exact ⟨h, by rw [h]⟩

/-- C5 amended: in the Binance screener (price_screener_binance.py) every
candidate on a non-blacklisted key increments `consecutive_alerts` before
the cooldown check, so a cooldown-suppressed notification still increments
the count; in the RWA screener (price_screener_rwa.py) the cooldown check
comes first and a cooldown-suppressed candidate leaves the count (and the
whole state) unchanged. -/
theorem consecutive_increment_policy :
    (∀ (s : AlertState) (now : ℚ) (ok : Bool),
      s.blacklisted = none →
      (BinancePriceScreener.send_alert s now ok).1.consecutive_alerts
        = s.consecutive_alerts + 1) ∧
    (∀ (s : AlertState) (now t : ℚ) (ok : Bool),
      s.blacklisted = none → s.last_alert = some t →
      now - t < alert_cooldown → s.consecutive_alerts + 1 < 2 →
      BinancePriceScreener.send_alert s now ok
        = ({ s with consecutive_alerts := s.consecutive_alerts + 1 },
           .cooldownSuppressed)) ∧
    (∀ (s : AlertState) (now t : ℚ) (ok : Bool),
      s.blacklisted = none → s.last_alert = some t →
      now - t < alert_cooldown →
      RWAPriceScreener.send_alert s now ok = (s, .cooldownSuppressed)) := by
  refine ⟨?_, ?_, ?_⟩
  · intro s now ok hb
    rw [BinancePriceScreener.send_alert_not_blacklisted s now ok hb]
    exact BinancePriceScreener.send_alert_core_consecutive s now ok
  · intro s now t ok hb hl hc h2
    rw [BinancePriceScreener.send_alert_not_blacklisted s now ok hb]
    obtain ⟨la, ca, bl⟩ := s
    simp only [AlertState.last_alert] at hl
    subst hl
    have h2' : ca + 1 < 2 := h2
    simp only [BinancePriceScreener.send_alert_core]
    rw [if_neg (by omega)]
    simp [hc]
  · intro s now t ok hb hl hc
    obtain ⟨la, ca, bl⟩ := s
    simp only [AlertState.blacklisted] at hb
    simp only [AlertState.last_alert] at hl
    subst hb
    subst hl
    simp [RWAPriceScreener.send_alert, RWAPriceScreener.send_alert_core, hc]

theorem consecutive_increment_policy_witness :
    (BinancePriceScreener.send_alert ⟨some 0, 0, none⟩ 100 true).1.consecutive_alerts
      = 1 ∧
    BinancePriceScreener.send_alert ⟨some 0, 0, none⟩ 100 true
      = (⟨some 0, 1, none⟩, .cooldownSuppressed) ∧
    RWAPriceScreener.send_alert ⟨some 0, 0, none⟩ 100 true
      = (⟨some 0, 0, none⟩, .cooldownSuppressed) := by
  have h := consecutive_increment_policy
  have hcool : (100 : ℚ) - 0 < alert_cooldown := by
    norm_num [alert_cooldown]
  refine ⟨h.1 ⟨some 0, 0, none⟩ 100 true rfl, ?_, ?_⟩
  · have := h.2.1 ⟨some 0, 0, none⟩ 100 0 true rfl rfl hcool (by norm_num)
    simpa using this
  · exact h.2.2 ⟨some 0, 0, none⟩ 100 0 true rfl rfl hcool

/-- C8 counterexample: AlertState updates are NOT all applied regardless of
delivery success.  In the Binance screener a failed Telegram send skips the
`last_alert` update (price_screener_binance.py line 383 runs only after a
successful send), and in the RWA screener a failed send skips the
`consecutive_alerts` increment as well (price_screener_rwa.py line 147). -/
theorem delivery_rollback_counterexample :
    (BinancePriceScreener.send_alert AlertState.init 0 true).1.last_alert
      = some 0 ∧
    (BinancePriceScreener.send_alert AlertState.init 0 false).1.last_alert
      = none ∧
    (RWAPriceScreener.send_alert AlertState.init 0 true).1.consecutive_alerts
      = 1 ∧
    (RWAPriceScreener.send_alert AlertState.init 0 false).1.consecutive_alerts
      = 0 := by
  exact ⟨rfl, rfl, rfl, rfl⟩

/-- C8 amended: a failed Telegram delivery is caught (logged, not
retried), does not prevent the other alerts of the same scan cycle from
being processed and delivered, and does not roll back the state mutations
applied before the delivery attempt — in the Binance screener the
`consecutive_alerts` increment and any blacklist-expiry clearing persist on
failure.  However, updates ordered after the send are applied only on
success: the Binance screener records `last_alert` only on success, and
the RWA screener applies no state change at all on a failed delivery. -/
theorem delivery_failure_isolation :
    (∀ (s : AlertState) (now : ℚ),
      s.blacklisted = none →
      (BinancePriceScreener.send_alert s now false).1.consecutive_alerts
        = s.consecutive_alerts + 1 ∧
      (BinancePriceScreener.send_alert s now false).1.last_alert
        = s.last_alert) ∧
    (∀ (s : AlertState) (now t0 : ℚ),
      s.blacklisted = some t0 → blacklist_duration ≤ now - t0 →
      s.consecutive_alerts = 0 →
      (BinancePriceScreener.send_alert s now false).1.blacklisted = none) ∧
    (∀ (st : String → AlertState) (k1 k2 : String) (t1 t2 : ℚ) (ok2 : Bool),
      k1 ≠ k2 →
      (BinancePriceScreener.runAlerts st [(k1, t1, false), (k2, t2, ok2)]).2
        = [(k1, (BinancePriceScreener.send_alert (st k1) t1 false).2),
           (k2, (BinancePriceScreener.send_alert (st k2) t2 ok2).2)]) ∧
    (∀ (s : AlertState) (now : ℚ),
      s.blacklisted = none →
      (RWAPriceScreener.send_alert s now false).1 = s) := by
  refine ⟨?_, ?_, ?_, ?_⟩
  · intro s now hb
    rw [BinancePriceScreener.send_alert_not_blacklisted s now false hb]
    have hns : (BinancePriceScreener.send_alert_core s now false).2
        ≠ SendOutcome.sent := by
      obtain ⟨la, ca, bl⟩ := s
      rcases la with _ | t <;>
        simp only [BinancePriceScreener.send_alert_core] <;>
        split_ifs <;> simp_all
    exact ⟨BinancePriceScreener.send_alert_core_consecutive s now false,
      BinancePriceScreener.send_alert_core_last_unchanged s now false hns⟩
  · intro s now t0 hb hge hc0
    rw [BinancePriceScreener.send_alert_expired s now t0 false hb
      (not_lt.mpr hge)]
    obtain ⟨la, ca, bl⟩ := s
    rcases la with _ | t <;>
      simp only [BinancePriceScreener.send_alert_core] <;>
      split_ifs <;> simp_all
  · intro st k1 k2 t1 t2 ok2 hne
    simp [BinancePriceScreener.runAlerts, Function.update_apply,
      Ne.symm hne]
  · intro s now hb
    obtain ⟨la, ca, bl⟩ := s
    simp only [AlertState.blacklisted] at hb
    subst hb
    rcases la with _ | t <;>
      simp only [RWAPriceScreener.send_alert,
        RWAPriceScreener.send_alert_core, RWAPriceScreener.deliver] <;>
      split_ifs <;> simp_all

theorem delivery_failure_isolation_witness :
    (BinancePriceScreener.send_alert AlertState.init 5 false).1.consecutive_alerts
      = 1 ∧
    (BinancePriceScreener.send_alert AlertState.init 5 false).1.last_alert
      = none ∧
    (BinancePriceScreener.send_alert ⟨none, 0, some 0⟩ 86400 false).1.blacklisted
      = none ∧
    (BinancePriceScreener.runAlerts (fun _ => AlertState.init)
        [("a", 0, false), ("b", 0, true)]).2
      = [("a", (BinancePriceScreener.send_alert AlertState.init 0 false).2),
         ("b", (BinancePriceScreener.send_alert AlertState.init 0 true).2)] ∧
    (RWAPriceScreener.send_alert AlertState.init 5 false).1
      = AlertState.init := by
  have h := delivery_failure_isolation
  have h1 := h.1 AlertState.init 5 rfl
  refine ⟨h1.1, h1.2, ?_, ?_, h.2.2.2 AlertState.init 5 rfl⟩
  · exact h.2.1 ⟨none, 0, some 0⟩ 86400 0 rfl
      (by norm_num [blacklist_duration]) rfl
  · exact h.2.2.1 (fun _ => AlertState.init) "a" "b" 0 0 true
      (by decide)
